import Mathlib

/-!
Shallow embedding of src/python/appinsights/dockercollector.py (class
DockerCollector): the container-state cache with its eviction and
key-discovery retry protocol, the stats-collection cycle and the
event-collection loop. Python dicts are modelled as association lists that
keep insertion order, time.time() values and parsed timestamps as
rationals, and each call into the docker wrapper collaborator as an
explicit outcome of type Except DockerWrapperError String.
-/

namespace AppInsightsDocker

/-- Exception type raised by the docker wrapper collaborator
(appinsights.dockerwrapper.DockerWrapperError). -/
structure DockerWrapperError where
  msg : String
  deriving DecidableEq, Repr

/-- Container descriptor as listed by the docker remote API; the collector
code only ever reads its Id field and never looks at the rest. -/
structure Container where
  Id : String
  deriving DecidableEq, Repr

/-- Cache entry stored in DockerCollector._containers_state: the dict
literal of line 182 of dockercollector.py, with keys ikey, registered,
unregistered and container. -/
structure Entry where
  ikey : Option String
  registered : ℚ
  unregistered : Option ℚ
  container : Container
  deriving DecidableEq, Repr

/-- Python dict lookup: the value bound to the first occurrence of the key. -/
def dictGet (k : String) : List (String × Entry) → Option Entry
  | [] => none
  | (k2, v) :: rest => if k2 = k then some v else dictGet k rest

/-- Python dict assignment d[k] = v: replace the binding in place when the
key is present, append it otherwise. -/
def dictInsert (k : String) (v : Entry) : List (String × Entry) → List (String × Entry)
  | [] => [(k, v)]
  | (k2, v2) :: rest => if k2 = k then (k, v) :: rest else (k2, v2) :: dictInsert k v rest

/-- Membership test of an identifier in curr_containers_ids, the dict
comprehension of line 141 built from the fresh listing. -/
def containerListed (cs : List Container) (id : String) : Bool :=
  cs.any (fun c => c.Id == id)

/-- Per-entry effect of the loop body of remove_old_containers (lines
143-148): an identifier present in the new listing is untouched; otherwise
its unregistered mark is set to now when it was absent, and the whole entry
is deleted when the mark is older than 60 seconds. -/
def evictStep (now : ℚ) (listed : Bool) (e : Entry) : Option Entry :=
  if listed then some e
  else
    match e.unregistered with
    | none => some { e with unregistered := some now }
    | some t => if t < now - 60 then none else some e

/-- DockerCollector.remove_old_containers (lines 132-150): walk the keys of
the cache and apply evictStep to every binding, keeping insertion order. -/
def remove_old_containers (now : ℚ) (current : List (String × Entry))
    (new_containers : List Container) : List (String × Entry) :=
  match current with
  | [] => []
  | (k, e) :: rest =>
    match evictStep now (containerListed new_containers k) e with
    | none => remove_old_containers now rest new_containers
    | some e2 => (k, e2) :: remove_old_containers now rest new_containers

/-- Model of the Python str.strip() primitive: drop whitespace from both
ends of the character list of the string. -/
def pyStrip (s : String) : String :=
  ⟨((s.data.dropWhile Char.isWhitespace).reverse.dropWhile Char.isWhitespace).reverse⟩

/-- Model of the Python str.split(sep) primitive for a one-character
separator: every occurrence of the separator splits, empty pieces are
kept. -/
def pySplit (sep : Char) (s : String) : List String :=
  (s.data.splitOn sep).map (fun cs => ⟨cs⟩)

/-- DockerCollector._get_container_sdk_info (lines 152-160): the
run_command outcome is passed in explicitly; a DockerWrapperError is
absorbed into none, the output is stripped, and empty output becomes none. -/
def get_container_sdk_info (run_command_result : Except DockerWrapperError String) :
    Option String :=
  match run_command_result with
  | .error _ => none
  | .ok result =>
    let result := pyStrip result
    if result = "" then none else some result

/-- DockerCollector._get_container_sdk_ikey (lines 202-209): split the file
content on the equals sign and return the piece at index 1, or none when
there are fewer than two pieces. -/
def get_container_sdk_ikey (run_command_result : Except DockerWrapperError String) :
    Option String :=
  match get_container_sdk_info run_command_result with
  | none => none
  | some content =>
    let splits := pySplit '=' content
    if splits.length < 2 then none
    else some (splits.getD 1 "")

/-- Result of one _update_container_state call: the cache afterwards, the
value returned, and how many key-discovery attempts (calls of
_get_container_sdk_ikey, hence of run_command) were performed. -/
structure UpdateResult where
  state : List (String × Entry)
  ret : Option String
  queries : Nat
  deriving DecidableEq, Repr

/-- Body of the for i in range(5) loop of _update_container_state (lines
180-187): every iteration queries discovery once, stores a fresh entry
(ikey as found, registered now, unregistered absent), and returns as soon
as the ikey is non-absent; otherwise it sleeps and retries until the fuel
runs out. The oracle maps the attempt number to its run_command outcome. -/
def create_entry_loop (oracle : Nat → Except DockerWrapperError String) (now : ℚ)
    (c : Container) (state : List (String × Entry)) (i : Nat) : Nat → UpdateResult
  | 0 => ⟨state, none, 0⟩
  | fuel + 1 =>
    let ikey := get_container_sdk_ikey (oracle i)
    let state2 := dictInsert c.Id ⟨ikey, now, none, c⟩ state
    if ikey.isSome then ⟨state2, ikey, 1⟩
    else
      let r := create_entry_loop oracle now c state2 (i + 1) fuel
      ⟨r.state, r.ret, r.queries + 1⟩

/-- DockerCollector._update_container_state (lines 177-200): create the
entry with up to five discovery attempts when the identifier is unknown;
return the cached ikey when it is known; retry discovery once per pass
while the entry is younger than 60 seconds; otherwise give up. -/
def update_container_state (oracle : Nat → Except DockerWrapperError String) (now : ℚ)
    (state : List (String × Entry)) (c : Container) : UpdateResult :=
  match dictGet c.Id state with
  | none => create_entry_loop oracle now c state 0 5
  | some status =>
    if status.ikey.isSome then ⟨state, status.ikey, 0⟩
    else if status.registered > now - 60 then
      let ikey := get_container_sdk_ikey (oracle 0)
      ⟨dictInsert c.Id { status with ikey := ikey } state, ikey, 1⟩
    else ⟨state, none, 0⟩

/-- Sequential unfolding of the executor.map over the fresh listing in
_update_containers_state (lines 174-175): apply _update_container_state to
every listed container in turn, recording for each container how many
discovery queries its update performed. The oracle maps a container id and
an attempt number to the run_command outcome. -/
def refresh_loop (orc : String → Nat → Except DockerWrapperError String) (now : ℚ) :
    List Container → List (String × Entry) → List (String × Entry) × List (String × Nat)
  | [], s => (s, [])
  | c :: cs, s =>
    let r := update_container_state (orc c.Id) now s c
    let rest := refresh_loop orc now cs r.state
    (rest.1, (c.Id, r.queries) :: rest.2)

/-- DockerCollector._update_containers_state (lines 172-175): evict stale
entries against the fresh listing, then update the state of every listed
container. -/
def update_containers_state (orc : String → Nat → Except DockerWrapperError String) (now : ℚ)
    (state : List (String × Entry)) (containers : List Container) :
    List (String × Entry) × List (String × Nat) :=
  refresh_loop orc now containers (remove_old_containers now state containers)

/-- Selection of lines 77-78 of collect_stats_and_send: the containers that
must self-report through the collector, namely the entry of the collector
own container plus every entry whose ikey is absent. -/
def containers_without_sdk (my_container_id : String) (state : List (String × Entry)) :
    List Container :=
  (state.filter (fun p => p.1 == my_container_id || p.2.ikey.isNone)).map
    (fun p => p.2.container)

/-- Semantics of list(executor.map(f, items)) with respect to the per-item
outcomes of f: collecting the results re-raises the first exception raised
by any item, so the batch yields either every result in input order or one
exception. -/
def executorMap {α β : Type} (f : α → Except DockerWrapperError β) :
    List α → Except DockerWrapperError (List β)
  | [] => Except.ok []
  | a :: rest =>
    match f a with
    | .error e => .error e
    | .ok b =>
      match executorMap f rest with
      | .error e => .error e
      | .ok bs => .ok (b :: bs)

/-- Modelled from the spec: get_stats lives in dockerwrapper.py, which is
not under src; by the collaborator contract getStats(container,
sampleCount) returns a sequence of stats samples and is given no declared
failure mode, so it is passed here as a total function. The fan-out itself
is lines 80-85 of collect_stats_and_send: the lambda pairs each container
of the must-self-report set with its stats. -/
def stats_fan_out {σ : Type} (get_stats : Container → σ) (containers : List Container) :
    Except DockerWrapperError (List (Container × σ)) :=
  executorMap (fun c => Except.ok (c, get_stats c)) containers

/-- Record emitted for one metric: the dict of line 91. -/
structure MetricEvent (μ π : Type) where
  metric : μ
  properties : π
  deriving DecidableEq

/-- Emission loop of collect_stats_and_send (lines 87-91): keep only the
pairs whose stats hold more than one sample, convert the samples, build the
container properties once, and emit one record per converted metric. The
conversion collaborator convert_to_metrics and the property builder
get_container_properties are parameters, being out-of-scope collaborators. -/
def collect_stats_emissions {σ μ π : Type} (convert_to_metrics : List σ → List μ)
    (get_container_properties : Container → String → π) (host_name : String)
    (container_stats : List (Container × List σ)) : List (MetricEvent μ π) :=
  (container_stats.filter (fun p => p.2.length > 1)).flatMap
    (fun p => (convert_to_metrics p.2).map (fun m => ⟨m, get_container_properties p.1 host_name⟩))

/-- Value stored in the event property dict: the collector writes strings,
rationals (parsed instants and durations) and integers into it. -/
inductive PropVal where
  | str : String → PropVal
  | num : ℚ → PropVal
  | int : Int → PropVal
  deriving DecidableEq, Repr

/-- State part of an inspection record (fields read at lines 113-121); the
two instants are the dateutil-parsed timestamps, in seconds. -/
structure InspectState where
  StartedAt : ℚ
  FinishedAt : ℚ
  ExitCode : Int
  Err : Option String
  deriving DecidableEq, Repr

/-- Inspection record returned by the docker wrapper for an event. -/
structure Inspection where
  Created : String
  State : InspectState
  RestartCount : Int
  deriving DecidableEq, Repr

/-- Record emitted for one lifecycle event: the event_data dict of
line 129. -/
structure EventRecord where
  name : String
  ikey : String
  properties : List (String × PropVal)
  deriving DecidableEq, Repr

/-- Statuses handled by collect_container_events (line 102). -/
def allowed_statuses : List String :=
  ["start", "stop", "die", "restart", "pause", "unpause"]

/-- Per-event body of the loop of collect_container_events (lines 100-130):
a status outside the allowed set is skipped with no emission; otherwise
exactly one record is emitted whose properties extend the map produced by
the collaborator get_container_properties_from_inspect with status,
creation, start and restart data, and, for stop and die only, with finish
time, exit code, error text and the four duration figures. The base
property map and the resolved ikey are parameters. -/
def collect_container_event (base_properties : List (String × PropVal))
    (ikey_to_send_event : Option String) (status : String) (inspect : Inspection) :
    List EventRecord :=
  if status ∉ allowed_statuses then []
  else
    let event_name := "docker-container-" ++ status
    let properties := base_properties ++
      [("docker-status", PropVal.str status),
       ("docker-Created", PropVal.str inspect.Created),
       ("docker-StartedAt", PropVal.num inspect.State.StartedAt),
       ("docker-RestartCount", PropVal.int inspect.RestartCount)]
    let properties :=
      if status = "stop" ∨ status = "die" then
        let duration_seconds := inspect.State.FinishedAt - inspect.State.StartedAt
        properties ++
          [("docker-FinishedAt", PropVal.num inspect.State.FinishedAt),
           ("docker-ExitCode", PropVal.int inspect.State.ExitCode),
           ("docker-Error", PropVal.str (inspect.State.Err.getD "")),
           ("docker-duration-seconds", PropVal.num duration_seconds),
           ("docker-duration-minutes", PropVal.num (duration_seconds / 60)),
           ("docker-duration-hours", PropVal.num (duration_seconds / 3600)),
           ("docker-duration-days", PropVal.num (duration_seconds / 86400))]
      else properties
    [⟨event_name, ikey_to_send_event.getD "", properties⟩]

/-! Helper lemmas about the dict model. -/

theorem dictGet_insert_self (k : String) (v : Entry) (d : List (String × Entry)) :
    dictGet k (dictInsert k v d) = some v := by
  induction d with
  | nil => simp [dictGet, dictInsert]
  | cons p rest ih =>
    obtain ⟨k2, v2⟩ := p
    by_cases h : k2 = k
    · simp [dictInsert, h, dictGet]
    · simp [dictInsert, h, dictGet, ih]

theorem dictGet_insert_other (k k2 : String) (v : Entry) (d : List (String × Entry))
    (h : k2 ≠ k) : dictGet k2 (dictInsert k v d) = dictGet k2 d := by
  induction d with
  | nil => simp [dictGet, dictInsert, Ne.symm h]
  | cons p rest ih =>
    obtain ⟨k3, v3⟩ := p
    by_cases h3 : k3 = k
    · subst h3
      simp [dictInsert, dictGet, Ne.symm h]
    · by_cases h2 : k3 = k2 <;> simp [dictInsert, dictGet, h3, h2, h, ih]

theorem dictGet_insert_ne_none (k k2 : String) (v : Entry) (d : List (String × Entry))
    (h : dictGet k2 d ≠ none) : dictGet k2 (dictInsert k v d) ≠ none := by
  by_cases hk : k2 = k
  · subst hk
    simp [dictGet_insert_self]
  · rw [dictGet_insert_other k k2 v d hk]
    exact h

theorem dictGet_eq_none_iff (k : String) (d : List (String × Entry)) :
    dictGet k d = none ↔ k ∉ d.map Prod.fst := by
  induction d with
  | nil => simp [dictGet]
  | cons p rest ih =>
    obtain ⟨k2, v2⟩ := p
    by_cases h : k2 = k
    · subst h
      simp [dictGet]
    · simp [dictGet, h, ih, Ne.symm h]

/-- Eviction never invents an entry for an identifier the cache does not
hold. -/
theorem dictGet_remove_old_none (now : ℚ) (cs : List Container) (st : List (String × Entry))
    (id : String) (h : dictGet id st = none) :
    dictGet id (remove_old_containers now st cs) = none := by
  induction st with
  | nil => simp [remove_old_containers, dictGet]
  | cons p rest ih =>
    obtain ⟨k, e⟩ := p
    by_cases hk : k = id
    · subst hk
      simp [dictGet] at h
    · simp only [dictGet, hk, if_false] at h
      cases hstep : evictStep now (containerListed cs k) e with
      | none => simp [remove_old_containers, hstep, ih h]
      | some e2 => simp [remove_old_containers, hstep, dictGet, hk, ih h]

/-- Lookup through remove_old_containers: with distinct keys, the entry an
identifier maps to afterwards is exactly the evictStep image of the entry
it mapped to before. -/
theorem dictGet_remove_old (now : ℚ) (cs : List Container) (st : List (String × Entry))
    (id : String) (hnd : (st.map Prod.fst).Nodup) :
    dictGet id (remove_old_containers now st cs) =
      (dictGet id st).bind (evictStep now (containerListed cs id)) := by
  induction st with
  | nil => simp [remove_old_containers, dictGet]
  | cons p rest ih =>
    obtain ⟨k, e⟩ := p
    simp only [List.map_cons, List.nodup_cons] at hnd
    by_cases h : k = id
    · subst h
      cases hstep : evictStep now (containerListed cs k) e with
      | some e2 =>
        simp [remove_old_containers, hstep, dictGet]
      | none =>
        have hrest : dictGet k rest = none :=
          (dictGet_eq_none_iff k rest).mpr hnd.1
        simp [remove_old_containers, hstep, dictGet, ih hnd.2, hrest]
    · cases hstep : evictStep now (containerListed cs k) e with
      | some e2 =>
        simp [remove_old_containers, hstep, dictGet, h, ih hnd.2]
      | none =>
        simp [remove_old_containers, hstep, dictGet, h, ih hnd.2]

/-! Helper lemmas about the resolution protocol. -/

theorem create_loop_other (o : Nat → Except DockerWrapperError String) (now : ℚ)
    (c : Container) (k : String) (h : k ≠ c.Id) (fuel : Nat) :
    ∀ s i, dictGet k (create_entry_loop o now c s i fuel).state = dictGet k s := by
  induction fuel with
  | zero => intro s i; rfl
  | succ f ih =>
    intro s i
    simp only [create_entry_loop]
    by_cases hk : (get_container_sdk_ikey (o i)).isSome
    · simp [hk, dictGet_insert_other _ _ _ _ h]
    · simp [hk, ih, dictGet_insert_other _ _ _ _ h]

theorem update_other (o : Nat → Except DockerWrapperError String) (now : ℚ)
    (s : List (String × Entry)) (c : Container) (k : String) (h : k ≠ c.Id) :
    dictGet k (update_container_state o now s c).state = dictGet k s := by
  unfold update_container_state
  cases hg : dictGet c.Id s with
  | none => exact create_loop_other o now c k h 5 s 0
  | some status =>
    by_cases h1 : status.ikey.isSome
    · simp [h1]
    · by_cases h2 : status.registered > now - 60
      · simp [h1, h2, dictGet_insert_other _ _ _ _ h]
      · simp [h1, h2]

theorem update_ikey_some (o : Nat → Except DockerWrapperError String) (now : ℚ)
    (s : List (String × Entry)) (c : Container) (e : Entry) (key : String)
    (hget : dictGet c.Id s = some e) (hik : e.ikey = some key) :
    update_container_state o now s c = ⟨s, some key, 0⟩ := by
  unfold update_container_state
  rw [hget]
  simp [hik]

/-- One unfolding step of the creation loop when the attempt finds a key. -/
theorem create_loop_step_some (o : Nat → Except DockerWrapperError String) (now : ℚ)
    (c : Container) (s : List (String × Entry)) (i f : Nat)
    (h0 : (get_container_sdk_ikey (o i)).isSome) :
    create_entry_loop o now c s i (f + 1) =
      ⟨dictInsert c.Id ⟨get_container_sdk_ikey (o i), now, none, c⟩ s,
        get_container_sdk_ikey (o i), 1⟩ := by
  simp [create_entry_loop, h0]

/-- One unfolding step of the creation loop when the attempt fails. -/
theorem create_loop_step_none (o : Nat → Except DockerWrapperError String) (now : ℚ)
    (c : Container) (s : List (String × Entry)) (i f : Nat)
    (h0 : get_container_sdk_ikey (o i) = none) :
    create_entry_loop o now c s i (f + 1) =
      ⟨(create_entry_loop o now c (dictInsert c.Id ⟨none, now, none, c⟩ s) (i + 1) f).state,
       (create_entry_loop o now c (dictInsert c.Id ⟨none, now, none, c⟩ s) (i + 1) f).ret,
       (create_entry_loop o now c (dictInsert c.Id ⟨none, now, none, c⟩ s) (i + 1) f).queries + 1⟩ := by
  simp [create_entry_loop, h0]

theorem create_loop_own_shape (o : Nat → Except DockerWrapperError String) (now : ℚ)
    (c : Container) (fuel : Nat) :
    ∀ s i, ∃ ik, dictGet c.Id (create_entry_loop o now c s i (fuel + 1)).state =
      some ⟨ik, now, none, c⟩ := by
  induction fuel with
  | zero =>
    intro s i
    cases hk : get_container_sdk_ikey (o i) with
    | some key =>
      refine ⟨some key, ?_⟩
      rw [create_loop_step_some o now c s i 0 (by simp [hk])]
      simp [hk, dictGet_insert_self]
    | none =>
      refine ⟨none, ?_⟩
      rw [create_loop_step_none o now c s i 0 hk]
      simp [create_entry_loop, dictGet_insert_self]
  | succ f ih =>
    intro s i
    cases hk : get_container_sdk_ikey (o i) with
    | some key =>
      refine ⟨some key, ?_⟩
      rw [create_loop_step_some o now c s i (f + 1) (by simp [hk])]
      simp [hk, dictGet_insert_self]
    | none =>
      obtain ⟨ik, hik⟩ := ih (dictInsert c.Id ⟨none, now, none, c⟩ s) (i + 1)
      refine ⟨ik, ?_⟩
      rw [create_loop_step_none o now c s i (f + 1) hk]
      exact hik

theorem create_loop_allfail (o : Nat → Except DockerWrapperError String) (now : ℚ)
    (c : Container) (hall : ∀ j, get_container_sdk_ikey (o j) = none) (fuel : Nat) :
    ∀ s i, dictGet c.Id (create_entry_loop o now c s i (fuel + 1)).state =
        some ⟨none, now, none, c⟩ ∧
      (create_entry_loop o now c s i (fuel + 1)).ret = none ∧
      (create_entry_loop o now c s i (fuel + 1)).queries = fuel + 1 := by
  induction fuel with
  | zero =>
    intro s i
    rw [create_loop_step_none o now c s i 0 (hall i)]
    simp [create_entry_loop, dictGet_insert_self]
  | succ f ih =>
    intro s i
    have h := ih (dictInsert c.Id ⟨none, now, none, c⟩ s) (i + 1)
    rw [create_loop_step_none o now c s i (f + 1) (hall i)]
    exact ⟨h.1, h.2.1, by rw [h.2.2]⟩

theorem create_loop_queries_le (o : Nat → Except DockerWrapperError String) (now : ℚ)
    (c : Container) (fuel : Nat) :
    ∀ s i, (create_entry_loop o now c s i fuel).queries ≤ fuel := by
  induction fuel with
  | zero => intro s i; simp [create_entry_loop]
  | succ f ih =>
    intro s i
    cases hk : get_container_sdk_ikey (o i) with
    | some key =>
      rw [create_loop_step_some o now c s i f (by simp [hk])]
      show 1 ≤ f + 1
      omega
    | none =>
      rw [create_loop_step_none o now c s i f hk]
      have h2 := ih (dictInsert c.Id ⟨none, now, none, c⟩ s) (i + 1)
      show (create_entry_loop o now c (dictInsert c.Id ⟨none, now, none, c⟩ s)
        (i + 1) f).queries + 1 ≤ f + 1
      omega

theorem create_loop_first_success (o : Nat → Except DockerWrapperError String) (now : ℚ)
    (c : Container) (fuel : Nat) :
    ∀ j s i, j < fuel → (∀ m, m < j → get_container_sdk_ikey (o (i + m)) = none) →
      (get_container_sdk_ikey (o (i + j))).isSome →
      (create_entry_loop o now c s i fuel).queries = j + 1 ∧
        (create_entry_loop o now c s i fuel).ret = get_container_sdk_ikey (o (i + j)) := by
  induction fuel with
  | zero => intro j s i hj; omega
  | succ f ih =>
    intro j s i hj hfail hsucc
    cases j with
    | zero =>
      simp only [Nat.add_zero] at hsucc
      rw [create_loop_step_some o now c s i f hsucc]
      exact ⟨rfl, rfl⟩
    | succ j2 =>
      have h0 : get_container_sdk_ikey (o i) = none := by
        simpa using hfail 0 (Nat.succ_pos j2)
      have hfail2 : ∀ m, m < j2 → get_container_sdk_ikey (o (i + 1 + m)) = none := by
        intro m hm
        have h := hfail (m + 1) (by omega)
        have harith : i + (m + 1) = i + 1 + m := by omega
        rwa [harith] at h
      have hsucc2 : (get_container_sdk_ikey (o (i + 1 + j2))).isSome := by
        have harith : i + (j2 + 1) = i + 1 + j2 := by omega
        rwa [harith] at hsucc
      have hr := ih j2 (dictInsert c.Id ⟨none, now, none, c⟩ s) (i + 1) (by omega) hfail2 hsucc2
      have harith : i + 1 + j2 = i + (j2 + 1) := by omega
      rw [harith] at hr
      rw [create_loop_step_none o now c s i f h0]
      refine ⟨?_, hr.2⟩
      show (create_entry_loop o now c (dictInsert c.Id ⟨none, now, none, c⟩ s)
        (i + 1) f).queries + 1 = j2 + 1 + 1
      rw [hr.1]

theorem update_own_ne_none (o : Nat → Except DockerWrapperError String) (now : ℚ)
    (s : List (String × Entry)) (c : Container) :
    dictGet c.Id (update_container_state o now s c).state ≠ none := by
  unfold update_container_state
  cases hg : dictGet c.Id s with
  | none =>
    obtain ⟨ik, hik⟩ := create_loop_own_shape o now c 4 s 0
    simp [hik]
  | some status =>
    by_cases h1 : status.ikey.isSome
    · simp [h1, hg]
    · by_cases h2 : status.registered > now - 60
      · simp [h1, h2, dictGet_insert_self]
      · simp [h1, h2, hg]

theorem update_ne_none_mono (o : Nat → Except DockerWrapperError String) (now : ℚ)
    (s : List (String × Entry)) (c : Container) (k : String)
    (h : dictGet k s ≠ none) :
    dictGet k (update_container_state o now s c).state ≠ none := by
  by_cases hk : k = c.Id
  · subst hk; exact update_own_ne_none o now s c
  · rw [update_other o now s c k hk]; exact h

theorem update_preserves_unreg (o : Nat → Except DockerWrapperError String) (now : ℚ)
    (s : List (String × Entry)) (c : Container) (e : Entry)
    (hget : dictGet c.Id s = some e) :
    ∃ e2, dictGet c.Id (update_container_state o now s c).state = some e2 ∧
      e2.unregistered = e.unregistered ∧ e2.registered = e.registered ∧
      e2.container = e.container := by
  unfold update_container_state
  rw [hget]
  by_cases h1 : e.ikey.isSome
  · refine ⟨e, ?_, rfl, rfl, rfl⟩
    simp [h1, hget]
  · by_cases h2 : e.registered > now - 60
    · refine ⟨{ e with ikey := get_container_sdk_ikey (o 0) }, ?_, rfl, rfl, rfl⟩
      simp [h1, h2, dictGet_insert_self]
    · refine ⟨e, ?_, rfl, rfl, rfl⟩
      simp [h1, h2, hget]

/-! Helper lemmas about the refresh pass. -/

theorem refresh_loop_other (orc : String → Nat → Except DockerWrapperError String) (now : ℚ)
    (k : String) (cs : List Container) :
    ∀ s, (∀ c ∈ cs, c.Id ≠ k) →
      dictGet k (refresh_loop orc now cs s).1 = dictGet k s := by
  induction cs with
  | nil => intro s _; rfl
  | cons c cs ih =>
    intro s h
    simp only [refresh_loop]
    rw [ih _ (fun c2 h2 => h c2 (List.mem_cons_of_mem c h2))]
    exact update_other (orc c.Id) now s c k (Ne.symm (h c (List.mem_cons_self c cs)))

theorem refresh_loop_ne_none (orc : String → Nat → Except DockerWrapperError String) (now : ℚ)
    (k : String) (cs : List Container) :
    ∀ s, dictGet k s ≠ none → dictGet k (refresh_loop orc now cs s).1 ≠ none := by
  induction cs with
  | nil => intro s h; exact h
  | cons c cs ih =>
    intro s h
    simp only [refresh_loop]
    exact ih _ (update_ne_none_mono (orc c.Id) now s c k h)

theorem refresh_loop_member (orc : String → Nat → Except DockerWrapperError String) (now : ℚ)
    (cs : List Container) :
    ∀ s, ∀ c ∈ cs, dictGet c.Id (refresh_loop orc now cs s).1 ≠ none := by
  induction cs with
  | nil => intro s c hc; cases hc
  | cons c0 cs ih =>
    intro s c hc
    rcases List.mem_cons.mp hc with h | h
    · subst h
      simp only [refresh_loop]
      exact refresh_loop_ne_none orc now c.Id cs _
        (update_own_ne_none (orc c.Id) now s c)
    · simp only [refresh_loop]
      exact ih _ c h

theorem refresh_loop_keeps_resolved (orc : String → Nat → Except DockerWrapperError String)
    (now : ℚ) (id : String) (e : Entry) (key : String) (hik : e.ikey = some key)
    (cs : List Container) :
    ∀ s, dictGet id s = some e →
      dictGet id (refresh_loop orc now cs s).1 = some e ∧
      ∀ q ∈ (refresh_loop orc now cs s).2, q.1 = id → q.2 = 0 := by
  induction cs with
  | nil => intro s hget; exact ⟨hget, by intro q hq; cases hq⟩
  | cons c cs ih =>
    intro s hget
    by_cases hc : c.Id = id
    · have hupd : update_container_state (orc c.Id) now s c = ⟨s, some key, 0⟩ :=
        update_ikey_some (orc c.Id) now s c e key (hc ▸ hget) hik
      simp only [refresh_loop, hupd]
      obtain ⟨h1, h2⟩ := ih s hget
      refine ⟨h1, ?_⟩
      intro q hq
      rcases List.mem_cons.mp hq with h | h
      · subst h; intro _; rfl
      · exact h2 q h
    · simp only [refresh_loop]
      have hpres : dictGet id (update_container_state (orc c.Id) now s c).state = some e := by
        rw [update_other (orc c.Id) now s c id (fun h => hc h.symm)]
        exact hget
      obtain ⟨h1, h2⟩ := ih _ hpres
      refine ⟨h1, ?_⟩
      intro q hq
      rcases List.mem_cons.mp hq with h | h
      · subst h; intro hqid; exact (hc hqid).elim
      · exact h2 q h

theorem refresh_loop_preserves_unreg (orc : String → Nat → Except DockerWrapperError String)
    (now : ℚ) (id : String) (cs : List Container) :
    ∀ s e, dictGet id s = some e →
      ∃ e2, dictGet id (refresh_loop orc now cs s).1 = some e2 ∧
        e2.unregistered = e.unregistered := by
  induction cs with
  | nil => intro s e hget; exact ⟨e, hget, rfl⟩
  | cons c cs ih =>
    intro s e hget
    simp only [refresh_loop]
    by_cases hc : c.Id = id
    · subst hc
      obtain ⟨e2, hg2, hu2, _, _⟩ :=
        update_preserves_unreg (orc c.Id) now s c e hget
      obtain ⟨e3, hg3, hu3⟩ := ih _ e2 hg2
      exact ⟨e3, hg3, by rw [hu3, hu2]⟩
    · have hpres : dictGet id (update_container_state (orc c.Id) now s c).state = some e := by
        rw [update_other (orc c.Id) now s c id (fun h => hc h.symm)]
        exact hget
      exact ih _ e hpres

theorem refresh_loop_allfail (orc : String → Nat → Except DockerWrapperError String)
    (now : ℚ) (cs : List Container) :
    ∀ s c, (cs.map Container.Id).Nodup → c ∈ cs → dictGet c.Id s = none →
      (∀ j, get_container_sdk_ikey (orc c.Id j) = none) →
      dictGet c.Id (refresh_loop orc now cs s).1 = some ⟨none, now, none, c⟩ := by
  induction cs with
  | nil => intro s c _ hc; cases hc
  | cons c0 cs ih =>
    intro s c hnd hc hnone hall
    simp only [List.map_cons, List.nodup_cons] at hnd
    rcases List.mem_cons.mp hc with h | h
    · subst h
      simp only [refresh_loop]
      have hupd : update_container_state (orc c.Id) now s c =
          create_entry_loop (orc c.Id) now c s 0 5 := by
        unfold update_container_state
        rw [hnone]
      rw [hupd]
      have hcl := (create_loop_allfail (orc c.Id) now c hall 4 s 0).1
      rw [refresh_loop_other orc now c.Id cs _ ?hne]
      · exact hcl
      · intro c2 h2 heq
        exact hnd.1 (heq ▸ List.mem_map.mpr ⟨c2, h2, rfl⟩)
    · have hne : c.Id ≠ c0.Id := by
        intro heq
        exact hnd.1 (heq ▸ List.mem_map.mpr ⟨c, h, rfl⟩)
      simp only [refresh_loop]
      have hpres : dictGet c.Id (update_container_state (orc c0.Id) now s c0).state = none := by
        rw [update_other (orc c0.Id) now s c0 c.Id hne]
        exact hnone
      exact ih _ c hnd.2 h hpres hall

theorem executorMap_ok {α β : Type} (f : α → β) (l : List α) :
    executorMap (fun a => Except.ok (f a)) l = Except.ok (l.map f) := by
  induction l with
  | nil => rfl
  | cons a l ih => simp [executorMap, ih]

/-! Claim theorems. -/

/-- C1: grace-period eviction law. After remove_old_containers, an
identifier present in the fresh listing keeps its binding untouched; an
absent identifier with no unregistered mark gets the mark set to now; an
absent identifier whose mark is less than 60 seconds old keeps its entry
unchanged; an absent identifier whose mark is more than 60 seconds old has
its entry deleted. -/
theorem claim_C1_grace_period_eviction (now : ℚ) (st : List (String × Entry))
    (cs : List Container) (id : String) (hnd : (st.map Prod.fst).Nodup) :
    (containerListed cs id = true →
      dictGet id (remove_old_containers now st cs) = dictGet id st) ∧
    (∀ e, containerListed cs id = false → dictGet id st = some e → e.unregistered = none →
      dictGet id (remove_old_containers now st cs) = some { e with unregistered := some now }) ∧
    (∀ e t, containerListed cs id = false → dictGet id st = some e →
      e.unregistered = some t → now - t < 60 →
      dictGet id (remove_old_containers now st cs) = some e) ∧
    (∀ e t, containerListed cs id = false → dictGet id st = some e →
      e.unregistered = some t → 60 < now - t →
      dictGet id (remove_old_containers now st cs) = none) := by
  have hbind := dictGet_remove_old now cs st id hnd
  refine ⟨?_, ?_, ?_, ?_⟩
  · intro hl
    rw [hbind]
    cases dictGet id st with
    | none => rfl
    | some e => simp [evictStep, hl]
  · intro e hl hget hu
    rw [hbind, hget]
    simp [evictStep, hl, hu]
  · intro e t hl hget hu hlt
    have hkeep : ¬ t < now - 60 := by linarith
    rw [hbind, hget]
    simp [evictStep, hl, hu, hkeep]
  · intro e t hl hget hu hgt
    have hdel : t < now - 60 := by linarith
    rw [hbind, hget]
    simp [evictStep, hl, hu, hdel]

/-- C1 witness: the four eviction clauses at concrete cache states, with
now = 100: a listed identifier untouched, a freshly missing identifier
marked at 100, a mark 30 seconds old retained, a mark 90 seconds old
evicted. -/
theorem claim_C1_grace_period_eviction_witness :
    dictGet "a" (remove_old_containers 100 [("a", ⟨none, 0, none, ⟨"a"⟩⟩)] [⟨"a"⟩]) =
        dictGet "a" [("a", ⟨none, 0, none, ⟨"a"⟩⟩)] ∧
    dictGet "b" (remove_old_containers 100 [("b", ⟨none, 0, none, ⟨"b"⟩⟩)] []) =
        some ⟨none, 0, some 100, ⟨"b"⟩⟩ ∧
    dictGet "c" (remove_old_containers 100 [("c", ⟨none, 0, some 70, ⟨"c"⟩⟩)] []) =
        some ⟨none, 0, some 70, ⟨"c"⟩⟩ ∧
    dictGet "d" (remove_old_containers 100 [("d", ⟨none, 0, some 10, ⟨"d"⟩⟩)] []) = none :=
  ⟨(claim_C1_grace_period_eviction 100 [("a", ⟨none, 0, none, ⟨"a"⟩⟩)] [⟨"a"⟩] "a"
      (by decide)).1 (by decide),
   (claim_C1_grace_period_eviction 100 [("b", ⟨none, 0, none, ⟨"b"⟩⟩)] [] "b"
      (by decide)).2.1 ⟨none, 0, none, ⟨"b"⟩⟩ (by decide) (by decide) rfl,
   (claim_C1_grace_period_eviction 100 [("c", ⟨none, 0, some 70, ⟨"c"⟩⟩)] [] "c"
      (by decide)).2.2.1 ⟨none, 0, some 70, ⟨"c"⟩⟩ 70 (by decide) (by decide) rfl (by norm_num),
   (claim_C1_grace_period_eviction 100 [("d", ⟨none, 0, some 10, ⟨"d"⟩⟩)] [] "d"
      (by decide)).2.2.2 ⟨none, 0, some 10, ⟨"d"⟩⟩ 10 (by decide) (by decide) rfl (by norm_num)⟩

/-- C2: resolution monotonicity. For an entry whose ikey is already
resolved, the per-container update returns the cache unchanged with zero
discovery queries, and a full refresh pass that lists the identifier keeps
the entry identical and performs zero discovery queries for it. -/
theorem claim_C2_resolution_monotonic (orc : String → Nat → Except DockerWrapperError String)
    (now : ℚ) (st : List (String × Entry)) (cs : List Container) (id : String)
    (e : Entry) (key : String) (hnd : (st.map Prod.fst).Nodup)
    (hget : dictGet id st = some e) (hik : e.ikey = some key) :
    (∀ c : Container, c.Id = id →
      update_container_state (orc id) now st c = ⟨st, some key, 0⟩) ∧
    (containerListed cs id = true →
      dictGet id (update_containers_state orc now st cs).1 = some e ∧
      ∀ q ∈ (update_containers_state orc now st cs).2, q.1 = id → q.2 = 0) := by
  constructor
  · intro c hc
    have hget2 : dictGet c.Id st = some e := by rw [hc]; exact hget
    exact update_ikey_some (orc id) now st c e key hget2 hik
  · intro hl
    have h1 : dictGet id (remove_old_containers now st cs) = some e := by
      rw [dictGet_remove_old now cs st id hnd, hget]
      simp [evictStep, hl]
    simp only [update_containers_state]
    exact refresh_loop_keeps_resolved orc now id e key hik cs _ h1

/-- C2 witness: a cache holding a resolved entry for identifier a is left
unchanged by the per-container update and by a full refresh against a
listing containing a, with an everywhere-failing collaborator. -/
theorem claim_C2_resolution_monotonic_witness :
    update_container_state
        ((fun (_ : String) (_ : Nat) =>
          (Except.error ⟨"down"⟩ : Except DockerWrapperError String)) "a") 100
        [("a", ⟨some "k", 0, none, ⟨"a"⟩⟩)] ⟨"a"⟩ =
      ⟨[("a", ⟨some "k", 0, none, ⟨"a"⟩⟩)], some "k", 0⟩ ∧
    dictGet "a" (update_containers_state
        (fun _ _ => Except.error ⟨"down"⟩) 100
        [("a", ⟨some "k", 0, none, ⟨"a"⟩⟩)] [⟨"a"⟩]).1 =
      some ⟨some "k", 0, none, ⟨"a"⟩⟩ :=
  ⟨(claim_C2_resolution_monotonic (fun _ _ => Except.error ⟨"down"⟩) 100
      [("a", ⟨some "k", 0, none, ⟨"a"⟩⟩)] [⟨"a"⟩] "a" ⟨some "k", 0, none, ⟨"a"⟩⟩ "k"
      (by decide) (by decide) rfl).1 ⟨"a"⟩ rfl,
   ((claim_C2_resolution_monotonic (fun _ _ => Except.error ⟨"down"⟩) 100
      [("a", ⟨some "k", 0, none, ⟨"a"⟩⟩)] [⟨"a"⟩] "a" ⟨some "k", 0, none, ⟨"a"⟩⟩ "k"
      (by decide) (by decide) rfl).2 (by decide)).1⟩

/-- C3: fan-out failure isolation. After a refresh pass over a batch of
listed containers, every container of the batch has a cache entry (a
result exists for all N items); a fresh container whose collaborator calls
all raise DockerWrapperError still gets an entry, with its ikey marked
absent; and the stats fan-out over a batch returns ok with one result per
item in input order, raising nothing. -/
theorem claim_C3_fanout_isolation {σ : Type}
    (orc : String → Nat → Except DockerWrapperError String) (now : ℚ)
    (cs : List Container) (st : List (String × Entry)) (get_stats : Container → σ)
    (hnd : (cs.map Container.Id).Nodup) :
    (∀ c ∈ cs, dictGet c.Id (update_containers_state orc now st cs).1 ≠ none) ∧
    (∀ c ∈ cs, dictGet c.Id st = none →
      (∀ j, ∃ err, orc c.Id j = Except.error err) →
      dictGet c.Id (update_containers_state orc now st cs).1 = some ⟨none, now, none, c⟩) ∧
    stats_fan_out get_stats cs = Except.ok (cs.map (fun c => (c, get_stats c))) := by
  refine ⟨?_, ?_, ?_⟩
  · intro c hc
    simp only [update_containers_state]
    exact refresh_loop_member orc now cs _ c hc
  · intro c hc hnone hall
    have hall2 : ∀ j, get_container_sdk_ikey (orc c.Id j) = none := by
      intro j
      obtain ⟨err, herr⟩ := hall j
      rw [herr]
      rfl
    simp only [update_containers_state]
    exact refresh_loop_allfail orc now cs _ c hnd hc
      (dictGet_remove_old_none now cs st c.Id hnone) hall2
  · exact executorMap_ok (fun c => (c, get_stats c)) cs

/-- C3 witness: a refresh of two fresh containers against an
everywhere-failing collaborator yields an entry for each, with container a
marked ikey-absent, and the stats fan-out on a singleton batch returns ok. -/
theorem claim_C3_fanout_isolation_witness :
    dictGet "a" (update_containers_state (fun _ _ => Except.error ⟨"down"⟩) 5 []
        [⟨"a"⟩, ⟨"b"⟩]).1 ≠ none ∧
    dictGet "a" (update_containers_state (fun _ _ => Except.error ⟨"down"⟩) 5 []
        [⟨"a"⟩, ⟨"b"⟩]).1 = some ⟨none, 5, none, ⟨"a"⟩⟩ ∧
    stats_fan_out (fun _ => (0 : Nat)) [⟨"a"⟩] = Except.ok [(⟨"a"⟩, 0)] :=
  ⟨(claim_C3_fanout_isolation (fun _ _ => Except.error ⟨"down"⟩) 5 [⟨"a"⟩, ⟨"b"⟩] []
      (fun _ => (0 : Nat)) (by decide)).1 ⟨"a"⟩ (by decide),
   (claim_C3_fanout_isolation (fun _ _ => Except.error ⟨"down"⟩) 5 [⟨"a"⟩, ⟨"b"⟩] []
      (fun _ => (0 : Nat)) (by decide)).2.1 ⟨"a"⟩ (by decide) rfl
      (fun _ => ⟨⟨"down"⟩, rfl⟩),
   (claim_C3_fanout_isolation (fun _ _ => Except.error ⟨"down"⟩) 5 [⟨"a"⟩] []
      (fun _ => (0 : Nat)) (by decide)).2.2⟩

/-- C4: retry bound. On the creation pass for an unknown identifier, at
most 5 discovery attempts happen; when no attempt ever finds a key,
exactly 5 attempts happen and none is returned; when the first success is
attempt j, exactly j+1 attempts happen and its key is returned. Once an
entry is more than 60 seconds past registered with ikey still absent, the
update performs zero discovery attempts and leaves the cache unchanged. -/
theorem claim_C4_retry_bound (o : Nat → Except DockerWrapperError String) (now : ℚ)
    (st : List (String × Entry)) (c : Container) :
    (dictGet c.Id st = none →
      (update_container_state o now st c).queries ≤ 5 ∧
      ((∀ j, get_container_sdk_ikey (o j) = none) →
        (update_container_state o now st c).queries = 5 ∧
        (update_container_state o now st c).ret = none) ∧
      (∀ j, j < 5 → (∀ m, m < j → get_container_sdk_ikey (o m) = none) →
        (get_container_sdk_ikey (o j)).isSome →
        (update_container_state o now st c).queries = j + 1 ∧
        (update_container_state o now st c).ret = get_container_sdk_ikey (o j))) ∧
    (∀ e, dictGet c.Id st = some e → e.ikey = none → e.registered < now - 60 →
      update_container_state o now st c = ⟨st, none, 0⟩) := by
  constructor
  · intro hnone
    have hupd : update_container_state o now st c = create_entry_loop o now c st 0 5 := by
      unfold update_container_state
      rw [hnone]
    rw [hupd]
    refine ⟨create_loop_queries_le o now c 5 st 0, ?_, ?_⟩
    · intro hall
      have h := create_loop_allfail o now c hall 4 st 0
      exact ⟨h.2.2, h.2.1⟩
    · intro j hj hfail hsucc
      have hfail0 : ∀ m, m < j → get_container_sdk_ikey (o (0 + m)) = none := by
        intro m hm
        rw [Nat.zero_add]
        exact hfail m hm
      have hsucc0 : (get_container_sdk_ikey (o (0 + j))).isSome := by
        rw [Nat.zero_add]
        exact hsucc
      have h := create_loop_first_success o now c 5 j st 0 hj hfail0 hsucc0
      rwa [Nat.zero_add] at h
  · intro e hget hik hreg
    unfold update_container_state
    rw [hget]
    have h1 : e.ikey.isSome = false := by rw [hik]; rfl
    have h2 : ¬ e.registered > now - 60 := by linarith
    simp [h1, h2]

/-- C4 witness: with an always-failing collaborator the creation pass for a
fresh container does exactly 5 attempts and returns none; with a
collaborator succeeding at the first attempt it does exactly 1; and a
key-less entry registered more than 60 seconds ago is left alone with zero
attempts. -/
theorem claim_C4_retry_bound_witness :
    (update_container_state (fun _ => Except.error ⟨"d"⟩) 7 [] ⟨"c1"⟩).queries = 5 ∧
    (update_container_state (fun _ => Except.error ⟨"d"⟩) 7 [] ⟨"c1"⟩).ret = none ∧
    (update_container_state (fun _ => Except.ok "ikey=k") 7 [] ⟨"c1"⟩).queries = 1 ∧
    update_container_state (fun _ => Except.error ⟨"d"⟩) 100
        [("a", ⟨none, 0, none, ⟨"a"⟩⟩)] ⟨"a"⟩ =
      ⟨[("a", ⟨none, 0, none, ⟨"a"⟩⟩)], none, 0⟩ :=
  ⟨(((claim_C4_retry_bound (fun _ => Except.error ⟨"d"⟩) 7 [] ⟨"c1"⟩).1 rfl).2.1
      (fun _ => rfl)).1,
   (((claim_C4_retry_bound (fun _ => Except.error ⟨"d"⟩) 7 [] ⟨"c1"⟩).1 rfl).2.1
      (fun _ => rfl)).2,
   (((claim_C4_retry_bound (fun _ => Except.ok "ikey=k") 7 [] ⟨"c1"⟩).1 rfl).2.2 0
      (by omega) (fun m hm => absurd hm (by omega)) (by decide)).1,
   (claim_C4_retry_bound (fun _ => Except.error ⟨"d"⟩) 100
      [("a", ⟨none, 0, none, ⟨"a"⟩⟩)] ⟨"a"⟩).2 ⟨none, 0, none, ⟨"a"⟩⟩
      (by decide) rfl (by norm_num)⟩

/-- C5 counterexample: a cache entry for identifier a carries the missing
mark unregistered = 10; container a reappears in the fresh listing and a
refresh pass runs at time 100; the entry afterwards still carries
unregistered = 10, not none, so reappearance does not clear the mark. -/
theorem claim_C5_counterexample :
    dictGet "a" (update_containers_state (fun _ _ => Except.error ⟨"down"⟩) 100
        [("a", ⟨some "k", 0, some 10, ⟨"a"⟩⟩)] [⟨"a"⟩]).1 =
      some ⟨some "k", 0, some 10, ⟨"a"⟩⟩ ∧
    some (10 : ℚ) ≠ (none : Option ℚ) := by
  exact ⟨by decide, by decide⟩

/-- C5 amended: unregisteredAt is cleared on reappearance only through
entry recreation. When the identifier has no cache entry, the update
creates a fresh entry whose unregisteredAt is absent; but when the entry
still exists, a refresh pass that lists the identifier preserves its
unregisteredAt value unchanged, so a mark set during a transient absence
is not cleared by reappearance. -/
theorem claim_C5_reappearance_amended (orc : String → Nat → Except DockerWrapperError String)
    (now : ℚ) (st : List (String × Entry)) (cs : List Container) (id : String)
    (hnd : (st.map Prod.fst).Nodup) :
    (∀ c : Container, dictGet c.Id st = none →
      ∃ e, dictGet c.Id (update_container_state (orc c.Id) now st c).state = some e ∧
        e.unregistered = none ∧ e.registered = now ∧ e.container = c) ∧
    (containerListed cs id = true → ∀ e, dictGet id st = some e →
      ∃ e2, dictGet id (update_containers_state orc now st cs).1 = some e2 ∧
        e2.unregistered = e.unregistered) := by
  constructor
  · intro c hnone
    have hupd : update_container_state (orc c.Id) now st c =
        create_entry_loop (orc c.Id) now c st 0 5 := by
      unfold update_container_state
      rw [hnone]
    rw [hupd]
    obtain ⟨ik, hik⟩ := create_loop_own_shape (orc c.Id) now c 4 st 0
    exact ⟨⟨ik, now, none, c⟩, hik, rfl, rfl, rfl⟩
  · intro hl e hget
    have h1 : dictGet id (remove_old_containers now st cs) = some e := by
      rw [dictGet_remove_old now cs st id hnd, hget]
      simp [evictStep, hl]
    simp only [update_containers_state]
    exact refresh_loop_preserves_unreg orc now id cs _ e h1

/-- C5 amended witness: a fresh container gets an entry with no mark even
when discovery fails, and the marked entry of the counterexample scenario
keeps its mark through the refresh. -/
theorem claim_C5_reappearance_amended_witness :
    (∃ e, dictGet "b" (update_container_state
        ((fun (_ : String) (_ : Nat) =>
          (Except.error ⟨"down"⟩ : Except DockerWrapperError String)) "b") 100
        [] ⟨"b"⟩).state = some e ∧
      e.unregistered = none ∧ e.registered = 100 ∧ e.container = ⟨"b"⟩) ∧
    (∃ e2, dictGet "a" (update_containers_state (fun _ _ => Except.error ⟨"down"⟩) 100
        [("a", ⟨some "k", 0, some 10, ⟨"a"⟩⟩)] [⟨"a"⟩]).1 = some e2 ∧
      e2.unregistered = some 10) :=
  ⟨(claim_C5_reappearance_amended (fun _ _ => Except.error ⟨"down"⟩) 100 [] [] "b"
      (by decide)).1 ⟨"b"⟩ rfl,
   (claim_C5_reappearance_amended (fun _ _ => Except.error ⟨"down"⟩) 100
      [("a", ⟨some "k", 0, some 10, ⟨"a"⟩⟩)] [⟨"a"⟩] "a" (by decide)).2 (by decide)
      ⟨some "k", 0, some 10, ⟨"a"⟩⟩ (by decide)⟩

/-- C6 counterexample: for discovery file content name=a=b, the code
returns the piece between the first and second equals signs, a, and not
everything after the first equals sign, a=b. -/
theorem claim_C6_counterexample :
    get_container_sdk_ikey (Except.ok "name=a=b") = some "a" ∧
    get_container_sdk_ikey (Except.ok "name=a=b") ≠ some "a=b" := by
  exact ⟨by decide, by decide⟩

/-- C6 amended: key discovery absorbs transport errors into absent,
returns absent when the stripped content is empty or splits into fewer
than two pieces on the equals sign, and otherwise returns the piece at
index 1 of the split, the text between the first and second equals signs;
for a simple name=value line that piece is the value, but for name=a=b it
is a, not a=b. -/
theorem claim_C6_key_parsing_amended :
    (∀ err, get_container_sdk_ikey (Except.error err) = none) ∧
    (∀ s, pyStrip s = "" → get_container_sdk_ikey (Except.ok s) = none) ∧
    (∀ s, (pySplit '=' (pyStrip s)).length < 2 →
      get_container_sdk_ikey (Except.ok s) = none) ∧
    (∀ s, 2 ≤ (pySplit '=' (pyStrip s)).length →
      get_container_sdk_ikey (Except.ok s) = some ((pySplit '=' (pyStrip s)).getD 1 "")) ∧
    get_container_sdk_ikey (Except.ok "name=value") = some "value" ∧
    get_container_sdk_ikey (Except.ok "name=a=b") = some "a" := by
  refine ⟨fun err => rfl, ?_, ?_, ?_, by decide, by decide⟩
  · intro s h
    simp [get_container_sdk_ikey, get_container_sdk_info, h]
  · intro s h
    by_cases he : pyStrip s = ""
    · simp [get_container_sdk_ikey, get_container_sdk_info, he]
    · simp [get_container_sdk_ikey, get_container_sdk_info, he, h]
  · intro s h
    by_cases he : pyStrip s = ""
    · rw [he] at h
      simp [pySplit] at h
    · simp [get_container_sdk_ikey, get_container_sdk_info, he]
      exact h

/-- C6 amended witness: the empty-content, no-separator and well-formed
cases at concrete contents. -/
theorem claim_C6_key_parsing_amended_witness :
    get_container_sdk_ikey (Except.ok "   ") = none ∧
    get_container_sdk_ikey (Except.ok "abc") = none ∧
    get_container_sdk_ikey (Except.ok " ikey= ") =
      some ((pySplit '=' (pyStrip " ikey= ")).getD 1 "") :=
  ⟨claim_C6_key_parsing_amended.2.1 "   " (by decide),
   claim_C6_key_parsing_amended.2.2.1 "abc" (by decide),
   claim_C6_key_parsing_amended.2.2.2.1 " ikey= " (by decide)⟩

/-- C7: stats sample filtering. A container whose stats hold at most one
sample contributes no emission; one with more than one sample contributes
exactly one record per converted metric, carrying that metric and the
container property map, with the conversion output passed through
unmodified. -/
theorem claim_C7_stats_filtering {σ μ π : Type} (convert_to_metrics : List σ → List μ)
    (get_container_properties : Container → String → π) (host_name : String)
    (c : Container) (stats : List σ) :
    (stats.length ≤ 1 →
      collect_stats_emissions convert_to_metrics get_container_properties host_name
        [(c, stats)] = []) ∧
    (1 < stats.length →
      collect_stats_emissions convert_to_metrics get_container_properties host_name
        [(c, stats)] =
      (convert_to_metrics stats).map
        (fun m => ⟨m, get_container_properties c host_name⟩)) := by
  constructor
  · intro h
    have h2 : ¬ (stats.length > 1) := by omega
    simp [collect_stats_emissions, List.filter, h2]
  · intro h
    simp [collect_stats_emissions, List.filter, h]

/-- C7 witness: one sample yields nothing; three samples yield the
identity conversion output paired with the constant property map. -/
theorem claim_C7_stats_filtering_witness :
    collect_stats_emissions (fun l => l) (fun _ _ => (0 : Nat)) "h"
      [(⟨"a"⟩, [(1 : Nat)])] = [] ∧
    collect_stats_emissions (fun l => l) (fun _ _ => (0 : Nat)) "h"
      [(⟨"a"⟩, [(1 : Nat), 2, 3])] = [⟨1, 0⟩, ⟨2, 0⟩, ⟨3, 0⟩] :=
  ⟨(claim_C7_stats_filtering (fun l => l) (fun _ _ => (0 : Nat)) "h" ⟨"a"⟩
      [(1 : Nat)]).1 (by decide),
   (claim_C7_stats_filtering (fun l => l) (fun _ _ => (0 : Nat)) "h" ⟨"a"⟩
      [(1 : Nat), 2, 3]).2 (by decide)⟩

/-- C8: event status filtering. An event whose status lies outside the
allowed set produces no emission; a start event produces exactly one
record, named docker-container-start, whose properties carry none of the
duration, finish-time, exit-code or error keys as long as the collaborator
property map does not carry them either. -/
theorem claim_C8_event_filtering (base : List (String × PropVal)) (ik : Option String)
    (inspect : Inspection) :
    (∀ status, status ∉ allowed_statuses →
      collect_container_event base ik status inspect = []) ∧
    (collect_container_event base ik "start" inspect).length = 1 ∧
    (∀ rec ∈ collect_container_event base ik "start" inspect,
      rec.name = "docker-container-start" ∧
      ∀ k ∈ (["docker-duration-seconds", "docker-duration-minutes",
          "docker-duration-hours", "docker-duration-days", "docker-FinishedAt",
          "docker-ExitCode", "docker-Error"] : List String),
        k ∉ base.map Prod.fst → k ∉ rec.properties.map Prod.fst) := by
  have hin : ("start" : String) ∈ allowed_statuses := by decide
  have hsd : ¬(("start" : String) = "stop" ∨ ("start" : String) = "die") := by decide
  refine ⟨?_, ?_, ?_⟩
  · intro status h
    simp [collect_container_event, h]
  · simp [collect_container_event, hin, hsd]
  · intro rec hrec
    simp only [collect_container_event, hin, not_true_eq_false, if_false, hsd,
      List.mem_singleton] at hrec
    subst hrec
    refine ⟨rfl, ?_⟩
    intro k hk hbase
    simp only [List.map_append, List.mem_append]
    rintro (hmem | hmem)
    · exact hbase hmem
    · revert hmem
      simp only [List.mem_cons, List.not_mem_nil, or_false] at hk
      rcases hk with rfl | rfl | rfl | rfl | rfl | rfl | rfl <;>
        (intro hmem; simp at hmem)

/-- C8 witness: a create event emits nothing, and a start event against an
empty collaborator map emits one record named docker-container-start whose
properties avoid the duration-seconds key. -/
theorem claim_C8_event_filtering_witness :
    collect_container_event [] none "create" ⟨"c", ⟨0, 125, 0, none⟩, 0⟩ = [] ∧
    (collect_container_event [] none "start" ⟨"c", ⟨0, 125, 0, none⟩, 0⟩).length = 1 := by
  have h := claim_C8_event_filtering [] none ⟨"c", ⟨0, 125, 0, none⟩, 0⟩
  exact ⟨h.1 "create" (by decide), h.2.1⟩

/-- C9: duration computation. For a stop or die event whose inspection
shows FinishedAt exactly 125 seconds after StartedAt, the single emitted
record carries docker-duration-seconds 125, minutes 125/60, hours
125/3600, and days 125/86400. -/
theorem claim_C9_duration (base : List (String × PropVal)) (ik : Option String)
    (created : String) (ec : Int) (err : Option String) (rc : Int) (t0 : ℚ)
    (status : String) (hst : status = "stop" ∨ status = "die") :
    (collect_container_event base ik status
        ⟨created, ⟨t0, t0 + 125, ec, err⟩, rc⟩).length = 1 ∧
    ("docker-duration-seconds", PropVal.num 125) ∈
      (collect_container_event base ik status
        ⟨created, ⟨t0, t0 + 125, ec, err⟩, rc⟩).flatMap EventRecord.properties ∧
    ("docker-duration-minutes", PropVal.num (125 / 60)) ∈
      (collect_container_event base ik status
        ⟨created, ⟨t0, t0 + 125, ec, err⟩, rc⟩).flatMap EventRecord.properties ∧
    ("docker-duration-hours", PropVal.num (125 / 3600)) ∈
      (collect_container_event base ik status
        ⟨created, ⟨t0, t0 + 125, ec, err⟩, rc⟩).flatMap EventRecord.properties ∧
    ("docker-duration-days", PropVal.num (125 / 86400)) ∈
      (collect_container_event base ik status
        ⟨created, ⟨t0, t0 + 125, ec, err⟩, rc⟩).flatMap EventRecord.properties := by
  have h125 : t0 + 125 - t0 = (125 : ℚ) := by ring
  rcases hst with rfl | rfl
  · have hs : ("stop" : String) ∈ allowed_statuses := by decide
    refine ⟨by simp [collect_container_event, hs], ?_, ?_, ?_, ?_⟩ <;>
      simp [collect_container_event, hs, h125]
  · have hs : ("die" : String) ∈ allowed_statuses := by decide
    refine ⟨by simp [collect_container_event, hs], ?_, ?_, ?_, ?_⟩ <;>
      simp [collect_container_event, hs, h125]

/-- C9 witness: the stop event at StartedAt 0, FinishedAt 125 carries the
four duration figures. -/
theorem claim_C9_duration_witness :
    ("docker-duration-seconds", PropVal.num 125) ∈
      (collect_container_event [] none "stop"
        ⟨"c", ⟨0, 0 + 125, 0, none⟩, 0⟩).flatMap EventRecord.properties ∧
    ("docker-duration-minutes", PropVal.num (125 / 60)) ∈
      (collect_container_event [] none "stop"
        ⟨"c", ⟨0, 0 + 125, 0, none⟩, 0⟩).flatMap EventRecord.properties ∧
    ("docker-duration-hours", PropVal.num (125 / 3600)) ∈
      (collect_container_event [] none "stop"
        ⟨"c", ⟨0, 0 + 125, 0, none⟩, 0⟩).flatMap EventRecord.properties ∧
    ("docker-duration-days", PropVal.num (125 / 86400)) ∈
      (collect_container_event [] none "stop"
        ⟨"c", ⟨0, 0 + 125, 0, none⟩, 0⟩).flatMap EventRecord.properties := by
  have h := claim_C9_duration [] none "c" 0 none 0 0 "stop" (Or.inl rfl)
  exact ⟨h.2.1, h.2.2.1, h.2.2.2.1, h.2.2.2.2⟩

/-- C10: an empty value after the equals sign yields the empty string as
the key, which is non-absent; a cache whose entries all carry that key and
do not belong to the collector is excluded wholesale from the
must-self-report set; the collector own container is always included; and
the empty key is treated as resolved, so the update returns it with zero
discovery queries and an unchanged cache. -/
theorem claim_C10_empty_value_key (o : Nat → Except DockerWrapperError String) (now : ℚ)
    (st : List (String × Entry)) (c : Container) (e : Entry) (my : String) :
    get_container_sdk_ikey (Except.ok "ikey=") = some "" ∧
    ((∀ p ∈ st, p.2.ikey = some "" ∧ p.1 ≠ my) → containers_without_sdk my st = []) ∧
    (∀ e2 : Entry, (my, e2) ∈ st → e2.container ∈ containers_without_sdk my st) ∧
    (dictGet c.Id st = some e → e.ikey = some "" →
      update_container_state o now st c = ⟨st, some "", 0⟩) := by
  refine ⟨by decide, ?_, ?_, ?_⟩
  · intro h
    have hf : st.filter (fun p => p.1 == my || p.2.ikey.isNone) = [] := by
      rw [List.filter_eq_nil_iff]
      intro p hp
      obtain ⟨h1, h2⟩ := h p hp
      simp [h1, h2]
    simp [containers_without_sdk, hf]
  · intro e2 hmem
    refine List.mem_map.mpr ⟨(my, e2), ?_, rfl⟩
    refine List.mem_filter.mpr ⟨hmem, ?_⟩
    simp
  · intro hget hik
    exact update_ikey_some o now st c e "" hget hik

/-- C10 witness: the parse of ikey=, the exclusion of a cache of
empty-key entries, the inclusion of the collector own entry, and the zero
queries update on an empty-key entry, at concrete inputs. -/
theorem claim_C10_empty_value_key_witness :
    get_container_sdk_ikey (Except.ok "ikey=") = some "" ∧
    containers_without_sdk "me" [("a", ⟨some "", 0, none, ⟨"a"⟩⟩)] = [] ∧
    (⟨"me"⟩ : Container) ∈
      containers_without_sdk "me" [("me", ⟨some "", 0, none, ⟨"me"⟩⟩)] ∧
    update_container_state (fun _ => Except.error ⟨"d"⟩) 100
        [("a", ⟨some "", 0, none, ⟨"a"⟩⟩)] ⟨"a"⟩ =
      ⟨[("a", ⟨some "", 0, none, ⟨"a"⟩⟩)], some "", 0⟩ :=
  ⟨(claim_C10_empty_value_key (fun _ => Except.error ⟨"d"⟩) 100
      [("a", ⟨some "", 0, none, ⟨"a"⟩⟩)] ⟨"a"⟩ ⟨some "", 0, none, ⟨"a"⟩⟩ "me").1,
   (claim_C10_empty_value_key (fun _ => Except.error ⟨"d"⟩) 100
      [("a", ⟨some "", 0, none, ⟨"a"⟩⟩)] ⟨"a"⟩ ⟨some "", 0, none, ⟨"a"⟩⟩ "me").2.1
      (by decide),
   (claim_C10_empty_value_key (fun _ => Except.error ⟨"d"⟩) 100
      [("me", ⟨some "", 0, none, ⟨"me"⟩⟩)] ⟨"a"⟩ ⟨some "", 0, none, ⟨"a"⟩⟩ "me").2.2.1
      ⟨some "", 0, none, ⟨"me"⟩⟩ (by decide),
   (claim_C10_empty_value_key (fun _ => Except.error ⟨"d"⟩) 100
      [("a", ⟨some "", 0, none, ⟨"a"⟩⟩)] ⟨"a"⟩ ⟨some "", 0, none, ⟨"a"⟩⟩ "me").2.2.2
      (by decide) rfl⟩

end AppInsightsDocker
